import Mathlib

/-!
Verification of the `splay` outbound-traffic generator (Go).

The repository has two iterations of one program: `main.go` (shared default
transport) and a later iteration adding a per-scenario `transportHolder`.
The shallow embedding below follows the later iteration, whose `ScenarioRun`,
`syncWorker`, `checkResponse` and `getTransport` subsume the earlier one;
where the two files differ only in logging they are identical for our
purposes.

External effects (the network, `http.NewRequest` URL parsing, `client.Do`)
are modelled as an explicit environment `HttpEnv` supplied per run; time is
modelled as integer seconds; Go `float64` throughput is modelled as `ℚ` and
`math.Ceil` as `Int.ceil`; Go nil-pointer-typed fields are `Option`;
a nil-pointer dereference is modelled as `Option.none` propagation.
-/

namespace Splay

/-! ### Global configuration (the `var` block of the source) -/

/-- Source: `httpWorkerNum = 20` in the `var` block (the `-c` flag can override
it at process start; the value is fixed for the whole of one run). -/
def httpWorkerNum : Nat := 20

/-- Source: `httpTimeout = 10` (seconds), the fixed per-request timeout. -/
def httpTimeout : Nat := 10

/-- Source: `defaultDisableKeepalive = true` in the `var` block. -/
def defaultDisableKeepalive : Bool := true

/-- Source: `defaultKeepalive = 10 * time.Second`, modelled in seconds. -/
def defaultKeepalive : Int := 10

/-- Source: `defaultIdleTimeout = 10 * time.Second`, modelled in seconds. -/
def defaultIdleTimeout : Int := 10

/-! ### Data model -/

/-- A `Validate` value is one response assertion: a name and an optional exact-match
status code (`StatusCode *int` in Go). -/
structure Validate where
  Name : String
  StatusCode : Option Int
deriving DecidableEq, Repr

/-- The `Scenario` record mirrors the Go struct: nilable `Period`/`Count`, float
throughput (modelled as `ℚ`), nilable keep-alive policy overrides, and a
list of validation rules. -/
structure Scenario where
  Name : String
  URL : String
  Period : Option Int
  Count : Option Int
  Throughput : ℚ
  DisableKeepalive : Option Bool
  Keepalive : Option Int
  IdleTimeout : Option Int
  Validates : List Validate
deriving DecidableEq, Repr

/-- The `ResultState` enum: `ResultOK`, `ResultValidationFail`,
`ResultRequestFail` (the three `iota` constants). -/
inductive ResultState where
  | ResultOK : ResultState
  | ResultValidationFail : ResultState
  | ResultRequestFail : ResultState
deriving DecidableEq, Repr

/-- A `ScenarioReport` is the aggregated scenario result: one counter per
outcome kind. -/
structure ScenarioReport where
  SuccessCount : Nat
  ValidationFailCount : Nat
  RequestFailCount : Nat
deriving DecidableEq, Repr

/-- Total number of outcomes recorded in a report. -/
def reportSum (r : ScenarioReport) : Nat :=
  r.SuccessCount + r.ValidationFailCount + r.RequestFailCount

/-! ### Validator (`checkResponse`) -/

/-- The data carried by the `xerrors.Errorf` validation error: the failing
rule's name, its expected status code, and the actual status code. -/
structure ValidationError where
  ruleName : String
  expected : Int
  got : Int
deriving DecidableEq, Repr

/-- The loop body of `checkResponse`: walk the rules in list order; a rule
with `StatusCode != nil` whose code differs from the response's code returns
an error at once (short circuit); otherwise continue. -/
def checkRules : List Validate → Int → Option ValidationError
  | [], _ => none
  | v :: vs, status =>
    match v.StatusCode with
    | some expected =>
      if status ≠ expected then some ⟨v.Name, expected, status⟩
      else checkRules vs status
    | none => checkRules vs status

/-- Function `checkResponse(ctx, s, res)`: applies the scenario's rules to the
response status code; `none` is a pass. -/
def checkResponse (s : Scenario) (statusCode : Int) : Option ValidationError :=
  checkRules s.Validates statusCode

/-- Whether a single rule rejects a given status code (the loop's guard
`v.StatusCode != nil && res.StatusCode != *v.StatusCode`). -/
def ruleFails (v : Validate) (status : Int) : Bool :=
  match v.StatusCode with
  | some expected => decide (status ≠ expected)
  | none => false

/-! ### Request executor (`runHttpRequest`) and worker (`syncWorker`)

The executor's effects are external; `HttpEnv` supplies them: whether
`http.NewRequest` accepts the scenario's URL, and what `client.Do` returns
for the i-th dispatch of the run (`none` = transport/network/timeout error,
`some code` = a response with that status code). -/

/-- The two failure points of `runHttpRequest`. -/
inductive ReqError where
  | newRequestError : ReqError
  | clientDoError : ReqError
deriving DecidableEq, Repr

/-- The external world for one scenario run. `urlOk` models whether
`http.NewRequest("GET", url, nil)` succeeds (it is deterministic in the URL);
`doResult i` models `client.Do` for the i-th dispatch. -/
structure HttpEnv where
  urlOk : String → Bool
  doResult : Nat → Option Int

/-- Function `runHttpRequest`: build the request (fails iff the URL is malformed),
then perform it under a fresh 10-second timeout context; any `client.Do`
failure is surfaced as an error, otherwise the response is returned. -/
def runHttpRequest (env : HttpEnv) (i : Nat) (s : Scenario) : Except ReqError Int :=
  if env.urlOk s.URL then
    match env.doResult i with
    | some statusCode => Except.ok statusCode
    | none => Except.error ReqError.clientDoError
  else
    Except.error ReqError.newRequestError

/-- Function `syncWorker`: run the request, classify the outcome: request error →
`ResultRequestFail`; response failing validation → `ResultValidationFail`;
otherwise `ResultOK`. -/
def syncWorker (env : HttpEnv) (i : Nat) (s : Scenario) : ResultState :=
  match runHttpRequest env i s with
  | Except.error _ => ResultState.ResultRequestFail
  | Except.ok status =>
    match checkResponse s status with
    | some _ => ResultState.ResultValidationFail
    | none => ResultState.ResultOK

/-! ### Dispatcher -/

/-- The `count` computation of `ScenarioRun`:
`if s.Period != nil { count = int(math.Ceil(float64(*s.Period) * s.Throughput)) }
else { count = *s.Count }`. The dereference `*s.Count` when `Count` is nil is
a nil-pointer panic, modelled as `none`. -/
def computeCount (s : Scenario) : Option Int :=
  match s.Period with
  | some p => some (Int.ceil ((p : ℚ) * s.Throughput))
  | none => s.Count

/-- The dispatch loop `for i := 1; i <= count; i++ { select { ctx.Done |
rlCh } }`, returning the indices of the accepted dispatches. `fuel` is the
remaining iteration budget; `cancelAfter = some k` means the run's
cancellation becomes observable (and is taken by the select, and makes the
pacer stop) once `k` ticks have been consumed; `none` means no cancellation
during the run. -/
def dispatchIndices : Nat → Nat → Option Nat → List Nat
  | _, 0, _ => []
  | _, _ + 1, some 0 => []
  | i, fuel + 1, some (k + 1) => i :: dispatchIndices (i + 1) fuel (some k)
  | i, fuel + 1, none => i :: dispatchIndices (i + 1) fuel none

/-! ### Aggregator -/

/-- The tally loop of `ScenarioRun`: fold the merged outcome stream over the
three counters `success`, `validationFail`, `requestFail`. -/
def tallyLoop : List ResultState → Nat → Nat → Nat → ScenarioReport
  | [], s, v, r => ⟨s, v, r⟩
  | ResultState.ResultOK :: rest, s, v, r => tallyLoop rest (s + 1) v r
  | ResultState.ResultValidationFail :: rest, s, v, r => tallyLoop rest s (v + 1) r
  | ResultState.ResultRequestFail :: rest, s, v, r => tallyLoop rest s v (r + 1)

/-- Function `ScenarioRun`: compute the request count (`none` models the nil-pointer
panic when both `Period` and `Count` are absent), run the dispatch loop,
have the worker pool produce one outcome per accepted dispatch, and tally.
The fan-in (`merge`) only permutes the outcome stream, and `tallyLoop` is
permutation-invariant (`tallyLoop_perm` below), so the dispatch-order list
stands in for any interleaving. -/
def ScenarioRun (env : HttpEnv) (s : Scenario) (cancelAfter : Option Nat) :
    Option ScenarioReport :=
  match computeCount s with
  | none => none
  | some count =>
    let dispatched := dispatchIndices 0 count.toNat cancelAfter
    let outcomes := dispatched.map (fun i => syncWorker env i s)
    some (tallyLoop outcomes 0 0 0)

/-- The scenario supervisor (`main`'s loop): each scenario runs as its own
independent unit; the result map keyed by name is modelled as the list of
(name, report) pairs. -/
def runAll (env : HttpEnv) (ss : List Scenario) : List (String × Option ScenarioReport) :=
  ss.map (fun s => (s.Name, ScenarioRun env s none))

/-! ### Channel capacities

Go's `make(chan T)` (no capacity argument) creates an unbuffered channel:
capacity 0. The model records the capacity of each channel `ScenarioRun`
creates. -/

/-- A Go channel's static buffering spec. -/
structure GoChanSpec where
  capacity : Nat
deriving DecidableEq, Repr

/-- Source: `scenarioCh := make(chan Scenario)` — the shared dispatch queue. -/
def scenarioChSpec : GoChanSpec := ⟨0⟩

/-- Source: `rlCh := make(chan ...)` with the empty struct element type — the pacer
tick channel. -/
def rlChSpec : GoChanSpec := ⟨0⟩

/-- Source: `reportCh := make(chan ResultState)` — one per worker. -/
def reportChSpec : GoChanSpec := ⟨0⟩

/-! ### Transport lifecycle manager (`transportHolder.getTransport`)

An `http.Transport` value is modelled by its configured fields plus an `id`
standing for Go pointer identity: each `&http.Transport\x7b...\x7d` allocation
yields a fresh id, drawn from the holder's `nextId` allocator (a modelling
device — the Go struct has only `transport` and `refreshDeadline`; the mutex
is subsumed by the sequential state-passing). Time is integer seconds. -/

/-- The fields of the `http.Transport` literal built by `getTransport`,
plus the allocation identity `id`. -/
structure Transport where
  id : Nat
  DisableKeepAlives : Bool
  MaxIdleConns : Nat
  MaxIdleConnsPerHost : Nat
  MaxConnsPerHost : Nat
  IdleConnTimeout : Int
  TLSHandshakeTimeout : Int
  ExpectContinueTimeout : Int
deriving DecidableEq, Repr

/-- The `&http.Transport\x7b...\x7d` literal: both branches of `getTransport`
build exactly these fields (only `DisableKeepAlives` and `IdleConnTimeout`
vary with the resolved policy). -/
def mkTransport (id : Nat) (disableKeepalive : Bool) (idleTimeout : Int) : Transport :=
  ⟨id, disableKeepalive, 0, 1000, 0, idleTimeout, 10, 1⟩

/-- Struct `transportHolder`: the current pool handle (nil before first use) and the
refresh deadline; `nextId` is the modelling allocator for pointer identity. -/
structure TransportHolder where
  transport : Option Transport
  refreshDeadline : Int
  nextId : Nat
deriving DecidableEq, Repr

/-- What one `getTransport` call produces: the updated holder, the returned
handle, and the old handle scheduled for asynchronous idle draining (after
`idleTimeout + 1` seconds), when a rotation displaced one. -/
structure AcquireResult where
  holder : TransportHolder
  transport : Transport
  drainScheduled : Option Transport
deriving DecidableEq, Repr

/-- Source: `disableKeepalive := defaultDisableKeepalive; if arg != nil`... -/
def resolveDisableKeepalive (o : Option Bool) : Bool :=
  o.getD defaultDisableKeepalive

/-- Source: `keepaliveTimeout := defaultKeepalive; if arg != nil`... (seconds). -/
def resolveKeepalive (o : Option Int) : Int :=
  o.getD defaultKeepalive

/-- Source: `idleTimeout := defaultIdleTimeout; if arg != nil`... (seconds). -/
def resolveIdleTimeout (o : Option Int) : Int :=
  o.getD defaultIdleTimeout

/-- Method `transportHolder.getTransport` under the holder's mutex. Keep-alive
disabled: create the pool lazily once and return it forever (the deadline is
never consulted nor set). Keep-alive enabled: rotate when no pool exists or
`now` is after `refreshDeadline`, setting the new deadline to
`now + keepaliveTimeout` and scheduling the displaced pool for idle
draining. -/
def getTransport (th : TransportHolder) (now : Int) (disableKeepaliveArg : Option Bool)
    (keepaliveArg idleTimeoutArg : Option Int) : AcquireResult :=
  let disableKeepalive := resolveDisableKeepalive disableKeepaliveArg
  let keepaliveTimeout := resolveKeepalive keepaliveArg
  let idleTimeout := resolveIdleTimeout idleTimeoutArg
  if disableKeepalive then
    match th.transport with
    | none =>
      let t := mkTransport th.nextId disableKeepalive idleTimeout
      ⟨⟨some t, th.refreshDeadline, th.nextId + 1⟩, t, none⟩
    | some t => ⟨th, t, none⟩
  else
    match th.transport with
    | none =>
      let t := mkTransport th.nextId disableKeepalive idleTimeout
      ⟨⟨some t, now + keepaliveTimeout, th.nextId + 1⟩, t, none⟩
    | some old =>
      if th.refreshDeadline < now then
        let t := mkTransport th.nextId disableKeepalive idleTimeout
        ⟨⟨some t, now + keepaliveTimeout, th.nextId + 1⟩, t, some old⟩
      else
        ⟨th, old, none⟩

/-- A sequence of consecutive `getTransport` calls with one policy, at the
given sequence of times, threading the holder state; returns the final
holder and the list of returned handles. -/
def acquireSeq (th : TransportHolder) (nows : List Int) (disableKeepaliveArg : Option Bool)
    (keepaliveArg idleTimeoutArg : Option Int) : TransportHolder × List Transport :=
  match nows with
  | [] => (th, [])
  | now :: rest =>
    let r := getTransport th now disableKeepaliveArg keepaliveArg idleTimeoutArg
    let res := acquireSeq r.holder rest disableKeepaliveArg keepaliveArg idleTimeoutArg
    (res.1, r.transport :: res.2)

/-! ### Context model (for the per-request timeout scope)

Go contexts form a derivation tree; what matters here is the shape of the
context `runHttpRequest` builds:
`ctx, cancel := context.WithTimeout(context.Background(), 10s)` — rooted at
`Background`, not at the run context passed in. -/

/-- A Go context's derivation chain. -/
inductive GoContext where
  | background : GoContext
  | withCancel : GoContext → GoContext
  | withTimeout : GoContext → Int → GoContext
deriving DecidableEq, Repr

/-- Whether a context is derived (transitively) from some cancellable
context — i.e. whether any external cancel signal can reach it. -/
def GoContext.derivedFromCancel : GoContext → Bool
  | GoContext.background => false
  | GoContext.withCancel _ => true
  | GoContext.withTimeout parent _ => parent.derivedFromCancel

/-- The outermost timeout attached to a context, if any (seconds). -/
def GoContext.timeoutSeconds : GoContext → Option Int
  | GoContext.withTimeout _ secs => some secs
  | _ => none

/-- The context `runHttpRequest` scopes each request with: the source line
shadows the incoming run context and builds
`context.WithTimeout(context.Background(), time.Duration(httpTimeout)*time.Second)`.
The parameter is the run context in scope at that line. -/
def requestContext (_runCtx : GoContext) : GoContext :=
  GoContext.withTimeout GoContext.background (httpTimeout : Int)

/-! ### Concrete environments and scenarios used to instantiate theorems -/

/-- A benign environment: every URL parses, every request gets status 200. -/
def okEnv : HttpEnv := ⟨fun _ => true, fun _ => some 200⟩

/-- An environment whose target always answers 404. -/
def env404 : HttpEnv := ⟨fun _ => true, fun _ => some 404⟩

/-- An environment in which `http.NewRequest` rejects every URL (the
malformed-URL case: the error is deterministic in the URL, so every dispatch
of such a scenario hits it). -/
def badUrlEnv : HttpEnv := ⟨fun _ => false, fun _ => some 200⟩

/-- A scenario with an explicit count of 3 and no rules. -/
def scnCount3 : Scenario := ⟨"w", "http-target", none, some 3, 1, none, none, none, []⟩

/-- A scenario with one rule requiring status 200. -/
def scnStatus200 : Scenario :=
  ⟨"v", "http-target", none, some 1, 1, none, none, none, [⟨"status-200", some 200⟩]⟩

/-- A scenario giving both a period (2 s at throughput 10) and a count. -/
def scnBoth : Scenario := ⟨"b", "http-target", some 2, some 999, 10, none, none, none, []⟩

/-- A scenario giving neither period nor count. -/
def scnNone : Scenario := ⟨"n", "http-target", none, none, 1, none, none, none, []⟩

/-- A count-2 scenario whose URL is malformed (rejected by `badUrlEnv`). -/
def badUrlScenario : Scenario := ⟨"bad", "missing-scheme", none, some 2, 1, none, none, none, []⟩

/-- A count-3 scenario whose URL is malformed. -/
def badUrlScenario3 : Scenario := ⟨"bad3", "missing-scheme", none, some 3, 1, none, none, none, []⟩

/-- A freshly zero-valued `transportHolder`, as allocated by `main`'s
`&transportHolder\x7b\x7d`. -/
def emptyHolder : TransportHolder := ⟨none, 0, 0⟩

/-! ## Helper lemmas -/

/-- Cancellation observable before the first tick stops the dispatch loop at
once, whatever the remaining budget. -/
theorem dispatchIndices_some_zero (i fuel : Nat) :
    dispatchIndices i fuel (some 0) = [] := by
  cases fuel <;> rfl

/-- Without cancellation the dispatch loop accepts its whole budget. -/
theorem dispatchIndices_length_none (fuel : Nat) :
    ∀ i, (dispatchIndices i fuel none).length = fuel := by
  induction fuel with
  | zero => intro i; rfl
  | succ n ih => intro i; simp [dispatchIndices, ih]

/-- With cancellation after `k` ticks the dispatch loop accepts
`min k fuel` dispatches. -/
theorem dispatchIndices_length_some (fuel : Nat) :
    ∀ i k, (dispatchIndices i fuel (some k)).length = min k fuel := by
  induction fuel with
  | zero => intro i k; simp [dispatchIndices]
  | succ n ih =>
    intro i k
    cases k with
    | zero => simp [dispatchIndices]
    | succ k' => simp [dispatchIndices, ih, Nat.succ_min_succ]

/-- The tally loop adds exactly one to one counter per outcome: the report's
total is the initial total plus the stream length. -/
theorem tallyLoop_sum : ∀ (l : List ResultState) (s v r : Nat),
    reportSum (tallyLoop l s v r) = s + v + r + l.length := by
  intro l
  induction l with
  | nil => intro s v r; simp [tallyLoop, reportSum]
  | cons a rest ih =>
    intro s v r
    cases a <;> simp only [tallyLoop, List.length_cons] <;> rw [ih] <;> omega

/-- The tally loop computes the occurrence count of each outcome kind. -/
theorem tallyLoop_counts : ∀ (l : List ResultState) (s v r : Nat),
    tallyLoop l s v r =
      ⟨s + l.count ResultState.ResultOK,
       v + l.count ResultState.ResultValidationFail,
       r + l.count ResultState.ResultRequestFail⟩ := by
  intro l
  induction l with
  | nil => intro s v r; simp [tallyLoop]
  | cons a rest ih =>
    intro s v r
    cases a <;> simp [tallyLoop, ih, List.count_cons, ScenarioReport.mk.injEq] <;> omega

/-- The tally is invariant under permutation of the outcome stream, which is
why the fan-in (`merge`) interleaving does not affect `ScenarioRun`'s
report. -/
theorem tallyLoop_perm (l l' : List ResultState) (h : l.Perm l') :
    tallyLoop l 0 0 0 = tallyLoop l' 0 0 0 := by
  rw [tallyLoop_counts, tallyLoop_counts, h.count_eq, h.count_eq, h.count_eq]

/-- Unfolding `ScenarioRun` once the count computation is known. -/
theorem scenarioRun_eq (env : HttpEnv) (s : Scenario) (c : Option Nat) (count : Int)
    (hc : computeCount s = some count) :
    ScenarioRun env s c =
      some (tallyLoop
        ((dispatchIndices 0 count.toNat c).map (fun i => syncWorker env i s)) 0 0 0) := by
  simp [ScenarioRun, hc]

/-- Tallying a stream in which every dispatch failed its request puts the
whole length on the request-failure counter. -/
theorem tallyLoop_map_requestFail (l : List Nat) (f : Nat → ResultState)
    (hf : ∀ i, f i = ResultState.ResultRequestFail) :
    ∀ s v r, tallyLoop (l.map f) s v r = ⟨s, v, r + l.length⟩ := by
  induction l with
  | nil => intro s v r; simp [tallyLoop]
  | cons a rest ih =>
    intro s v r
    simp only [List.map_cons, hf a, tallyLoop, List.length_cons]
    rw [ih]
    simp [ScenarioReport.mk.injEq]
    omega

/-! ## Claim theorems -/

/-- Claim C1: every dispatch accepted into the worker pool's queue yields
exactly one outcome, so the report's counts sum to the number of accepted
dispatches: exactly `N` for a count-`N` scenario without cancellation,
exactly `k` when cancellation lands after `k ≤ N` consumed ticks, and an
all-zero report when cancellation precedes the first tick. -/
theorem scenarioRun_outcome_conservation (env : HttpEnv) (s : Scenario) (N : Nat)
    (hc : computeCount s = some (N : Int)) :
    ((ScenarioRun env s none).map reportSum = some N) ∧
    (∀ k, k ≤ N → (ScenarioRun env s (some k)).map reportSum = some k) ∧
    ScenarioRun env s (some 0) = some ⟨0, 0, 0⟩ := by
  refine ⟨?_, ?_, ?_⟩
  · rw [scenarioRun_eq env s none _ hc]
    simp [tallyLoop_sum, dispatchIndices_length_none]
  · intro k hk
    rw [scenarioRun_eq env s (some k) _ hc]
    simp [tallyLoop_sum, dispatchIndices_length_some]
    omega
  · rw [scenarioRun_eq env s (some 0) _ hc, dispatchIndices_some_zero]
    rfl

/-- Witness for C1 at a concrete count-3 scenario in a benign environment. -/
theorem scenarioRun_outcome_conservation_witness :
    (ScenarioRun okEnv scnCount3 none).map reportSum = some 3 :=
  (scenarioRun_outcome_conservation okEnv scnCount3 3 rfl).1

/-- Claim C2 counterexample: with all three keep-alive overrides absent, the
pool acquired from a fresh holder has `DisableKeepAlives = true` — the
default policy is keep-alive *disabled*, not enabled as claimed
(`defaultDisableKeepalive = true` in the source). -/
theorem defaultPolicy_keepalive_enabled_cex :
    (getTransport emptyHolder 0 none none none).transport.DisableKeepAlives ≠ false := by
  decide

/-- Claim C2 (amended): when a scenario specifies no keep-alive policy
overrides, the resolved policy is keep-alive DISABLED with a 10-second
keepalive duration and a 10-second idle timeout; `acquire` therefore takes
the disabled branch: it lazily builds the pool once (with
`IdleConnTimeout = 10` s), returns it, and never touches the refresh
deadline. -/
theorem defaultPolicy_keepalive_disabled (th : TransportHolder) (now : Int)
    (h : th.transport = none) :
    resolveDisableKeepalive none = true ∧
    resolveKeepalive none = 10 ∧
    resolveIdleTimeout none = 10 ∧
    (getTransport th now none none none).transport = mkTransport th.nextId true 10 ∧
    (getTransport th now none none none).holder =
      ⟨some (mkTransport th.nextId true 10), th.refreshDeadline, th.nextId + 1⟩ := by
  refine ⟨rfl, rfl, rfl, ?_, ?_⟩ <;>
    simp [getTransport, resolveDisableKeepalive, resolveIdleTimeout,
      defaultDisableKeepalive, defaultIdleTimeout, h]

/-- Witness for the amended C2 at a fresh holder. -/
theorem defaultPolicy_keepalive_disabled_witness :
    resolveDisableKeepalive none = true ∧
    resolveKeepalive none = 10 ∧
    resolveIdleTimeout none = 10 ∧
    (getTransport emptyHolder 0 none none none).transport = mkTransport emptyHolder.nextId true 10 ∧
    (getTransport emptyHolder 0 none none none).holder =
      ⟨some (mkTransport emptyHolder.nextId true 10), emptyHolder.refreshDeadline,
        emptyHolder.nextId + 1⟩ :=
  defaultPolicy_keepalive_disabled emptyHolder 0 rfl

/-- Claim C3 counterexample: the shared dispatch queue is created by
`make(chan Scenario)` with no capacity argument — its capacity is 0, not the
worker count (20). -/
theorem dispatchQueue_capacity_cex : ¬ scenarioChSpec.capacity = httpWorkerNum := by
  decide

/-- Claim C3 (amended): the shared dispatch queue is unbuffered (capacity
0): no dispatch is ever buffered unconsumed — each handoff blocks until one
of the `httpWorkerNum = 20` workers receives it. Its capacity is not the
worker count. -/
theorem dispatchQueue_unbuffered :
    scenarioChSpec.capacity = 0 ∧
    httpWorkerNum = 20 ∧
    scenarioChSpec.capacity ≠ httpWorkerNum := by
  refine ⟨rfl, rfl, ?_⟩
  decide

/-- Claim C4: the total request count is `ceil(period * throughput)` whenever
a period is given — also when an explicit count is present too (period takes
precedence) — and the explicit count only when the period is absent. -/
theorem computeCount_period_precedence :
    (∀ (s : Scenario) (p : Int), s.Period = some p →
      computeCount s = some (Int.ceil ((p : ℚ) * s.Throughput))) ∧
    (∀ s, s.Period = none → computeCount s = s.Count) ∧
    (∀ (s : Scenario) (p c : Int), s.Period = some p → s.Count = some c →
      computeCount s = some (Int.ceil ((p : ℚ) * s.Throughput))) := by
  refine ⟨?_, ?_, ?_⟩
  · intro s p h; simp [computeCount, h]
  · intro s h; simp [computeCount, h]
  · intro s p c h _; simp [computeCount, h]

/-- Witness for C4: a scenario with both `period = 2` (throughput 10) and
`count = 999` computes `ceil(2 * 10) = 20`, ignoring the count. -/
theorem computeCount_period_precedence_witness :
    computeCount scnBoth = some (Int.ceil ((2 : ℚ) * 10)) ∧
    Int.ceil ((2 : ℚ) * 10) = 20 :=
  ⟨computeCount_period_precedence.2.2 scnBoth 2 999 rfl rfl, by norm_num⟩

/-- Claim C5: the validator passes every status code on an empty rule list,
walks the rules in list order, and on the first failing rule returns that
rule's failure data without evaluating any later rule (the conclusion does
not depend on `post`). -/
theorem checkResponse_order_shortcircuit :
    (∀ s status, s.Validates = [] → checkResponse s status = none) ∧
    (∀ (pre : List Validate) (v : Validate) (post : List Validate) (status expected : Int),
      (∀ w ∈ pre, ruleFails w status = false) →
      v.StatusCode = some expected → status ≠ expected →
      checkRules (pre ++ v :: post) status = some ⟨v.Name, expected, status⟩) := by
  constructor
  · intro s status h; simp [checkResponse, h, checkRules]
  · intro pre
    induction pre with
    | nil =>
      intro v post status expected _ hv hne
      simp [checkRules, hv, hne]
    | cons w rest ih =>
      intro v post status expected hpass hv hne
      have hw : ruleFails w status = false := hpass w (List.mem_cons_self w rest)
      have hrest : ∀ u ∈ rest, ruleFails u status = false :=
        fun u hu => hpass u (List.mem_cons_of_mem w hu)
      cases hsc : w.StatusCode with
      | none =>
        simpa [checkRules, hsc] using ih v post status expected hrest hv hne
      | some e =>
        have heq : status = e := by
          by_contra hne'
          simp [ruleFails, hsc, hne'] at hw
        simpa [checkRules, hsc, heq] using ih v post status expected hrest hv hne

/-- Witness for C5: a passing rule, then a failing status-200 rule against
404, then a never-reached rule. -/
theorem checkResponse_order_shortcircuit_witness :
    checkRules ([⟨"a", none⟩] ++ ⟨"b", some 200⟩ :: [⟨"c", some 500⟩]) 404 =
      some ⟨"b", 200, 404⟩ :=
  checkResponse_order_shortcircuit.2 [⟨"a", none⟩] ⟨"b", some 200⟩ [⟨"c", some 500⟩]
    404 200 (by decide) rfl (by decide)

/-- Claim C6: a failed request yields `ResultRequestFail` (and the code has
no retry path: `syncWorker` returns at once); a received response that fails
validation yields `ResultValidationFail`, never `ResultRequestFail` —
in particular a status-200 rule against an actual 404 — and a received
response passing validation yields `ResultOK`. -/
theorem syncWorker_outcome_classification :
    (∀ env i s e, runHttpRequest env i s = Except.error e →
      syncWorker env i s = ResultState.ResultRequestFail) ∧
    (∀ env i s status verr, runHttpRequest env i s = Except.ok status →
      checkResponse s status = some verr →
      syncWorker env i s = ResultState.ResultValidationFail) ∧
    (∀ env i s status, runHttpRequest env i s = Except.ok status →
      checkResponse s status = none →
      syncWorker env i s = ResultState.ResultOK) ∧
    (∀ env i s nm, s.Validates = [⟨nm, some 200⟩] →
      runHttpRequest env i s = Except.ok 404 →
      syncWorker env i s = ResultState.ResultValidationFail) := by
  refine ⟨?_, ?_, ?_, ?_⟩
  · intro env i s e h; simp [syncWorker, h]
  · intro env i s status verr h hv; simp [syncWorker, h, hv]
  · intro env i s status h hv; simp [syncWorker, h, hv]
  · intro env i s nm hval h
    simp [syncWorker, h, checkResponse, hval, checkRules]

/-- Witness for C6: one status-200 rule, actual status 404, classification is
a validation failure. -/
theorem syncWorker_outcome_classification_witness :
    syncWorker env404 0 scnStatus200 = ResultState.ResultValidationFail :=
  syncWorker_outcome_classification.2.2.2 env404 0 scnStatus200 "status-200" rfl rfl

/-- Claim C7 counterexample: a count-2 scenario whose URL is malformed is
NOT aborted at scenario start — its run completes with a report of two
`RequestFailed` outcomes (one per accepted dispatch), not the empty report an
abort-before-dispatch would give. -/
theorem malformedURL_abort_cex :
    ScenarioRun badUrlEnv badUrlScenario none = some ⟨0, 0, 2⟩ ∧
    reportSum ⟨0, 0, 2⟩ ≠ 0 := by
  refine ⟨rfl, ?_⟩
  decide

/-- Claim C7 (amended): a malformed URL is surfaced per dispatch inside the
request executor — `http.NewRequest` fails, so every accepted dispatch of
that scenario yields `RequestFailed` and the run completes with
`RequestFailCount = N` (it is not aborted at start) — while sibling
scenarios are unaffected: each scenario's entry in the supervisor's result
list is a function of that scenario alone, whatever its siblings are. -/
theorem malformedURL_per_dispatch_failure :
    (∀ (env : HttpEnv) (s : Scenario) (N : Nat), env.urlOk s.URL = false →
      computeCount s = some (N : Int) →
      ScenarioRun env s none = some ⟨0, 0, N⟩) ∧
    (∀ (env : HttpEnv) (pre post : List Scenario) (s : Scenario),
      runAll env (pre ++ s :: post) =
        runAll env pre ++ (s.Name, ScenarioRun env s none) :: runAll env post) := by
  constructor
  · intro env s N hurl hc
    rw [scenarioRun_eq env s none _ hc]
    rw [tallyLoop_map_requestFail _ _
      (fun i => by simp [syncWorker, runHttpRequest, hurl]) 0 0 0]
    simp [dispatchIndices_length_none]
  · intro env pre post s
    simp [runAll]

/-- Witness for the amended C7 at a concrete count-3 malformed-URL
scenario. -/
theorem malformedURL_per_dispatch_failure_witness :
    ScenarioRun badUrlEnv badUrlScenario3 none = some ⟨0, 0, 3⟩ :=
  malformedURL_per_dispatch_failure.1 badUrlEnv badUrlScenario3 3 rfl rfl

/-- Keep-alive disabled and a pool already cached: `getTransport` returns
the cached handle and changes nothing. -/
theorem getTransport_disabled_cached (th : TransportHolder) (now : Int)
    (ka idle : Option Int) (t : Transport) (h : th.transport = some t) :
    getTransport th now (some true) ka idle = ⟨th, t, none⟩ := by
  simp [getTransport, resolveDisableKeepalive, h]

/-- Keep-alive disabled and a pool already cached: any sequence of
consecutive `getTransport` calls returns that same handle every time and
leaves the holder unchanged. -/
theorem acquireSeq_disabled_cached (nows : List Int) :
    ∀ (th : TransportHolder) (ka idle : Option Int) (t : Transport),
      th.transport = some t →
      acquireSeq th nows (some true) ka idle = (th, List.replicate nows.length t) := by
  induction nows with
  | nil => intro th ka idle t _; rfl
  | cons now rest ih =>
    intro th ka idle t h
    simp [acquireSeq, getTransport_disabled_cached th now ka idle t h,
      ih th ka idle t h, List.replicate_succ]

/-- Claim C8: with `disableKeepalive = true`, the first `acquire` on a fresh
holder lazily builds the pool (the holder had none; the handle is the newly
allocated one), caches it, and every subsequent `acquire` — for any number
of consecutive calls at any times — returns the identical handle with the
holder unchanged (no rotation ever occurs). -/
theorem keepaliveDisabled_identical_handles (th : TransportHolder) (now : Int)
    (ka idle : Option Int) (nows : List Int) (h : th.transport = none) :
    (getTransport th now (some true) ka idle).transport =
      mkTransport th.nextId true (resolveIdleTimeout idle) ∧
    (getTransport th now (some true) ka idle).holder.transport =
      some (mkTransport th.nextId true (resolveIdleTimeout idle)) ∧
    acquireSeq (getTransport th now (some true) ka idle).holder nows (some true) ka idle =
      ((getTransport th now (some true) ka idle).holder,
        List.replicate nows.length (mkTransport th.nextId true (resolveIdleTimeout idle))) := by
  have hg : getTransport th now (some true) ka idle =
      ⟨⟨some (mkTransport th.nextId true (resolveIdleTimeout idle)), th.refreshDeadline,
        th.nextId + 1⟩, mkTransport th.nextId true (resolveIdleTimeout idle), none⟩ := by
    simp [getTransport, resolveDisableKeepalive, h]
  rw [hg]
  exact ⟨rfl, rfl, acquireSeq_disabled_cached nows _ ka idle _ rfl⟩

/-- Witness for C8: fresh holder, three further calls at arbitrary times all
return the pool built by the first call. -/
theorem keepaliveDisabled_identical_handles_witness :
    acquireSeq (getTransport emptyHolder 0 (some true) none none).holder [1, 5, 9]
        (some true) none none =
      ((getTransport emptyHolder 0 (some true) none none).holder,
        List.replicate 3 (mkTransport emptyHolder.nextId true (resolveIdleTimeout none))) :=
  (keepaliveDisabled_identical_handles emptyHolder 0 none none [1, 5, 9] rfl).2.2

/-- Claim C9: the per-request context is built fresh for every request
(`WithTimeout(Background, 10s)`): it is the same whatever run context is in
scope — in particular it is never derived from the run's cancellation signal
and carries the fixed 10-second timeout — and outcomes of dispatches
accepted before a cancellation are still all recorded (a run cancelled after
`k` ticks reports exactly `k` outcomes). -/
theorem requestTimeout_fresh_and_decoupled :
    (∀ c₁ c₂ : GoContext, requestContext c₁ = requestContext c₂) ∧
    (∀ c, (requestContext c).derivedFromCancel = false) ∧
    (∀ c, (requestContext c).timeoutSeconds = some 10) ∧
    (∀ (env : HttpEnv) (s : Scenario) (N k : Nat), computeCount s = some (N : Int) →
      k ≤ N → (ScenarioRun env s (some k)).map reportSum = some k) := by
  refine ⟨fun c₁ c₂ => rfl, fun c => rfl, fun c => rfl, ?_⟩
  intro env s N k hc hk
  rw [scenarioRun_eq env s (some k) _ hc]
  simp [tallyLoop_sum, dispatchIndices_length_some]
  omega

/-- Witness for C9: a count-3 run cancelled after 2 ticks records exactly 2
outcomes. -/
theorem requestTimeout_fresh_and_decoupled_witness :
    (ScenarioRun okEnv scnCount3 (some 2)).map reportSum = some 2 :=
  requestTimeout_fresh_and_decoupled.2.2.2 okEnv scnCount3 3 2 rfl (by decide)

/-- Claim C10: `ScenarioRun` is total exactly when the scenario has a period
or a count: with at least one present the count computation succeeds and the
run produces a report; with both absent the `*s.Count` dereference is a nil
pointer panic (modelled as `none`) and the run produces nothing. -/
theorem scenarioRun_count_totality (s : Scenario) :
    (s.Period.isSome ∨ s.Count.isSome → (computeCount s).isSome) ∧
    (s.Period = none → s.Count = none →
      computeCount s = none ∧ ∀ env c, ScenarioRun env s c = none) ∧
    (∀ env c, (computeCount s).isSome → (ScenarioRun env s c).isSome) := by
  refine ⟨?_, ?_, ?_⟩
  · intro h
    cases hp : s.Period with
    | some p => simp [computeCount, hp]
    | none =>
      cases hc : s.Count with
      | some c => simp [computeCount, hp, hc]
      | none => simp [hp, hc] at h
  · intro hp hc
    refine ⟨by simp [computeCount, hp, hc], ?_⟩
    intro env c
    simp [ScenarioRun, computeCount, hp, hc]
  · intro env c h
    cases hcc : computeCount s with
    | some count => simp [scenarioRun_eq env s c count hcc]
    | none => simp [hcc] at h

/-- Witness for C10: the period-or-count precondition holds for a count-3
scenario, and the count computation succeeds there. -/
theorem scenarioRun_count_totality_witness :
    (computeCount scnCount3).isSome :=
  (scenarioRun_count_totality scnCount3).1 (Or.inr (by decide))

